import Mathlib

/-!
Shallow embedding of the upload/analysis workflow of `src/static/script.js`
(the `DOMContentLoaded` closure): configuration constants, `formatFileSize`,
`showStatus`/`hideStatus`/`hideResults`, `showResults`, `handleDrop` and
`handleAnalysisRequest`.  JavaScript numbers that can be `NaN` are modelled
with an explicit `nan` constructor; file sizes are integral byte counts
(`file.size` is a non-negative integer).  Missing / `null` / `undefined`
fields are `Option`; JavaScript `||` on strings treats `""` as falsy and
`??` treats only `null`/`undefined` as missing, and both are modelled
explicitly below.
-/

namespace LunaShield

/-- `const MAX_FILE_SIZE_MB = 50` (script.js line 23). -/
def MAX_FILE_SIZE_MB : Nat := 50

/-- `const ALLOWED_FILE_TYPES = [...]` (script.js line 24). -/
def ALLOWED_FILE_TYPES : List String :=
  ["video/mp4", "video/quicktime", "video/x-msvideo", "video/avi"]

/-- `MAX_FILE_SIZE_MB * 1024 * 1024`, the byte limit used in the size checks
(script.js lines 93 and 257). -/
def maxFileSizeBytes : Nat := MAX_FILE_SIZE_MB * 1024 * 1024

/-- The `File` object as the workflow reads it: `name`, `size`, `type`. -/
structure FileData where
  name : String
  size : Nat
  type : String
deriving DecidableEq, Repr

/-- JavaScript `s1.includes(s2)` on strings: substring test. -/
def strContainsAux (p : List Char) : List Char → Bool
  | [] => p.isEmpty
  | c :: cs => p.isPrefixOf (c :: cs) || strContainsAux p cs

/-- JavaScript `s.includes(pat)`. -/
def strContains (s pat : String) : Bool :=
  strContainsAux pat.data s.data

/-- JavaScript `toUpperCase` on the ASCII strings the workflow produces:
upper-case each character. -/
def jsToUpper (s : String) : String :=
  String.mk (s.data.map Char.toUpper)

/-- JavaScript `x || d` where `x` is a possibly-missing string: `""`,
`null` and `undefined` are falsy and fall through to the default. -/
def jsOrStr (x : Option String) (d : String) : String :=
  match x with
  | some s => if s = "" then d else s
  | none => d

/-- Truthiness filter for an optional string: `some ""` is falsy. -/
def truthyStr (x : Option String) : Option String :=
  match x with
  | some s => if s = "" then none else some s
  | none => none

/-- JavaScript `a || b` chaining on possibly-missing strings. -/
def jsOrOpt (x y : Option String) : Option String :=
  match truthyStr x with
  | some s => some s
  | none => truthyStr y

/-- JavaScript `x ?? 'N/A'` applied to a numeric field followed by
`textContent` coercion: only `null`/`undefined` become `"N/A"`; a present
`0` renders as `"0"` (script.js lines 190-192). -/
def nullishCount (x : Option Int) : String :=
  match x with
  | some n => toString n
  | none => "N/A"

/-- A JavaScript number that may be `NaN` (used for the `confidence` field,
which is a real-valued percentage). -/
inductive JsNum where
  | nan : JsNum
  | num (q : ℚ) : JsNum
deriving DecidableEq, Repr

/-- JavaScript `Math.round`: round half toward positive infinity. -/
def jsRound (q : ℚ) : Int := Int.floor (q + 1/2)

/-- Input domain of `formatFileSize`: an integral byte count or `NaN`
(`file.size` is always a non-negative integer; negative integers and `NaN`
are handled defensively by the code, script.js lines 141-142). -/
inductive ByteInput where
  | nan : ByteInput
  | int (n : Int) : ByteInput
deriving DecidableEq, Repr

/-- `const sizes = ['Bytes', 'KB', 'MB', 'GB', 'TB']` (script.js line 140). -/
def sizesUnits : List String := ["Bytes", "KB", "MB", "GB", "TB"]

/-- `Math.floor(Math.log(bytes) / Math.log(1024))` for an integer
`bytes ≥ 1`: exact-arithmetic value, which is `Nat.log 1024 bytes`. -/
def fileSizeExponent (n : Nat) : Nat := Nat.log 1024 n

/-- `Math.min(i, sizes.length - 1)` (script.js line 145). -/
def sizeIndex (n : Nat) : Nat := min (fileSizeExponent n) (sizesUnits.length - 1)

/-- `formatFileSize` (script.js lines 137-147).  The decimal rendering of
the mantissa (`toFixed(2)` + `parseFloat`) is abstracted as the exact
rational quotient printed with `toString`; the unit selection and the
special cases are modelled exactly. -/
def formatFileSize (bytes : ByteInput) : String :=
  if bytes = ByteInput.int 0 then "0 Bytes"
  else
    match bytes with
    | ByteInput.nan => "Invalid size"
    | ByteInput.int n =>
      if n < 0 then "Invalid size"
      else
        let i := sizeIndex n.toNat
        toString ((n : ℚ) / ((1024 : ℚ) ^ i)) ++ " " ++ sizesUnits.getD i ""

/-- The content shown in the status area: `statusMessage.textContent` and
whether the `error` class was applied (script.js lines 149-154). -/
structure Status where
  message : String
  isError : Bool
deriving DecidableEq, Repr

/-- What `showResults` writes into the result panel on its success path
(script.js lines 188-221): the displayed strings, the clamped confidence
percentage, the meter class and the added verdict class. -/
structure ResultsDisplay where
  fileName : String
  verdictText : String
  totalFrames : String
  realCount : String
  fakeCount : String
  confidencePct : Nat
  meterClass : String
  verdictClass : String
deriving DecidableEq, Repr

/-- The observable UI surface the workflow mutates: the status area, the
visibility of the result panel, the last populated result fields, and the
disabled flag of the analyze button. -/
structure Ui where
  status : Option Status
  resultsShown : Bool
  rendered : Option ResultsDisplay
  analyzeDisabled : Bool
deriving DecidableEq, Repr

/-- `showStatus(message, isError)` (script.js lines 149-154): sets the
message and class, shows the status area, hides the result panel. -/
def showStatus (message : String) (isError : Bool) (u : Ui) : Ui :=
  { u with status := some ⟨message, isError⟩, resultsShown := false }

/-- `hideStatus()` (script.js lines 156-159). -/
def hideStatus (u : Ui) : Ui :=
  { u with status := none }

/-- `hideResults()` (script.js lines 231-238); the meter reset is part of
the next render and not observed separately. -/
def hideResults (u : Ui) : Ui :=
  { u with resultsShown := false }

/-- The nested `results` object of a successful response body
(script.js line 177 and the field reads at lines 180-196). -/
structure ResultsData where
  error_message : Option String
  file_name : Option String
  verdict : Option String
  frames_analyzed : Option Int
  real_frames : Option Int
  fake_frames : Option Int
  confidence : Option JsNum
deriving DecidableEq, Repr

/-- A parsed JSON response body as the workflow reads it: the `success`
flag, the nested `results`, and the three possible error-text fields. -/
structure ResponseBody where
  success : Option Bool
  results : Option ResultsData
  error : Option String
  detail : Option String
  message : Option String
deriving DecidableEq, Repr

/-- `Math.max(0, Math.min(100, Math.round(data.confidence)))` guarded by
the `undefined`/`null`/`isNaN` check (script.js lines 195-200): the
confidence percentage that gets displayed. -/
def displayedConfidence (c : Option JsNum) : Nat :=
  match c with
  | some (JsNum.num q) => (max 0 (min 100 (jsRound q))).toNat
  | _ => 0

/-- The meter class chosen from the clamped confidence
(script.js lines 208-214). -/
def meterClassFor (confidence : Nat) : String :=
  if confidence ≥ 70 then "confidence-meter-bar high"
  else if confidence ≥ 40 then "confidence-meter-bar medium"
  else "confidence-meter-bar low"

/-- `data.verdict || 'UNKNOWN'` (script.js line 189). -/
def displayedVerdict (v : Option String) : String :=
  jsOrStr v "UNKNOWN"

/-- The class added at script.js line 220:
`verdict-` + `(data.verdict || 'UNKNOWN').toUpperCase()`. -/
def verdictClassFor (v : Option String) : String :=
  "verdict-" ++ jsToUpper (jsOrStr v "UNKNOWN")

/-- The result panel population of `showResults`
(script.js lines 188-221). -/
def renderResults (data : ResultsData) : ResultsDisplay :=
  let confidence := displayedConfidence data.confidence
  { fileName := jsOrStr data.file_name "N/A"
    verdictText := displayedVerdict data.verdict
    totalFrames := nullishCount data.frames_analyzed
    realCount := nullishCount data.real_frames
    fakeCount := nullishCount data.fake_frames
    confidencePct := confidence
    meterClass := meterClassFor confidence
    verdictClass := verdictClassFor data.verdict }

/-- `showResults(responseData)` (script.js lines 161-229).  The argument is
`none` when the parsed value is `null`/`undefined` or not an object. -/
def showResults (responseData : Option ResponseBody) (u : Ui) : Ui :=
  let u := hideStatus u
  match responseData with
  | none => showStatus "Received invalid response from server." true u
  | some rd =>
    if rd.success ≠ some true ∨ rd.results = none then
      let errorMsg := jsOrStr (jsOrOpt rd.error rd.message)
        "Analysis failed. Results key missing in response."
      showStatus ("Analysis Error: " ++ errorMsg) true u
    else
      match rd.results with
      | none => u
      | some data =>
        match truthyStr data.error_message with
        | some note =>
          { showStatus ("Analysis Note: " ++ note) false u with resultsShown := false }
        | none =>
          { u with rendered := some (renderResults data), resultsShown := true }

/-- `handleDrop` (script.js lines 82-103), restricted to its effect on the
status/result surface (`updateFileInfoDisplay` touches only the file label,
which the claims do not mention). -/
def handleDrop (files : List FileData) (u : Ui) : Ui :=
  match files with
  | [] => u
  | file :: _ =>
    if ¬ ALLOWED_FILE_TYPES.contains file.type then
      showStatus ("Unsupported file type: " ++ file.type ++
        ". Please use MP4, MOV, or AVI.") true u
    else if file.size > maxFileSizeBytes then
      showStatus ("File \"" ++ file.name ++ "\" is too large (>" ++
        toString MAX_FILE_SIZE_MB ++ "MB).") true u
    else
      hideStatus (hideResults u)

/-- Outcome of `await response.json()` (script.js lines 282-294): the parse
either throws, or produces a value that is an object or `null`. -/
inductive BodyParse where
  | failed
  | value (v : Option ResponseBody)
deriving DecidableEq, Repr

/-- How the single `fetch` settles: the fetch promise rejects (with the
flag telling whether it is the recognizable `TypeError` whose lowercased
message contains `failed to fetch`), or a response arrives with `ok`,
`status`, `statusText` and a body. -/
inductive ServerBehavior where
  | fetchError (isConnFailure : Bool) (msg : String)
  | respond (ok : Bool) (status : Nat) (statusText : String) (body : BodyParse)
deriving DecidableEq, Repr

/-- `ALLOWED_FILE_TYPES.map(t => t.split('/')[1]).join(', ').toUpperCase()`
(script.js line 252). -/
def allowedTypesStr : String :=
  jsToUpper (String.intercalate ", "
    (ALLOWED_FILE_TYPES.map (fun t => (t.splitOn "/").getD 1 "")))

/-- The catch block's message rewriting (script.js lines 313-321): a
connection failure gets a fixed connectivity message, a message containing
`Server error: 5` gets a fixed generic server-error message, anything else
is prefixed with `Analysis failed: `. -/
def catchUserMessage (isConnFailure : Bool) (msg : String) : String :=
  if isConnFailure then
    "Could not connect to the analysis server. Please check the server status and your network connection."
  else if strContains msg "Server error: 5" then
    "A server error occurred during analysis. Please try again later."
  else
    "Analysis failed: " ++ msg

/-- The catch block's UI effect (script.js lines 322-323). -/
def catchBranch (isConnFailure : Bool) (msg : String) (u : Ui) : Ui :=
  hideResults (showStatus (catchUserMessage isConnFailure msg) true u)

/-- The `finally` block (script.js lines 325-329). -/
def finallyBranch (u : Ui) : Ui :=
  { u with analyzeDisabled := false }

/-- The post-parse part of the try block (script.js lines 297-310):
non-`ok` statuses throw the field-priority message, an explicit
`success === false` throws its own field-priority message, and everything
else reaches `showResults`. -/
def afterParse (ok : Bool) (status : Nat) (statusText : String)
    (responseData : Option ResponseBody) (u : Ui) : Ui :=
  if ¬ ok then
    let errorMsg := jsOrStr
      (jsOrOpt (responseData.bind ResponseBody.error)
        (jsOrOpt (responseData.bind ResponseBody.detail)
          (responseData.bind ResponseBody.message)))
      ("Server error: " ++ toString status ++ " " ++ statusText)
    catchBranch false errorMsg u
  else
    match responseData with
    | some rd =>
      if rd.success = some false then
        let errorMsg := jsOrStr (jsOrOpt rd.error rd.message)
          "Analysis reported failure."
        catchBranch false errorMsg u
      else
        showResults (some rd) u
    | none => showResults none u

/-- The result of one click of the analyze button: the final UI and
whether the network call was issued. -/
structure RunResult where
  ui : Ui
  fetchCalled : Bool
deriving DecidableEq, Repr

/-- `handleAnalysisRequest` (script.js lines 240-330).  A click on a
disabled button does not fire, so the handler is a no-op while
`analyzeDisabled`; otherwise: validation (no file / disallowed type /
oversize) returns early with an error status and no fetch, and an
accepted file disables the button, shows the busy status, issues the
fetch, runs the try/catch on the settled `ServerBehavior`, and re-enables
the button in `finally`. -/
def handleAnalysisRequest (u : Ui) (file : Option FileData)
    (server : ServerBehavior) : RunResult :=
  if u.analyzeDisabled then ⟨u, false⟩
  else
    match file with
    | none => ⟨showStatus "Please select or drop a video file first." true u, false⟩
    | some file =>
      if ¬ ALLOWED_FILE_TYPES.contains file.type then
        let fileType := if file.type = "" then "unknown" else file.type
        ⟨showStatus ("Unsupported file type (" ++ fileType ++ "). Please upload " ++
          allowedTypesStr ++ ".") true u, false⟩
      else if file.size > maxFileSizeBytes then
        ⟨showStatus ("File size (" ++ formatFileSize (ByteInput.int file.size) ++
          ") exceeds " ++ toString MAX_FILE_SIZE_MB ++ "MB limit.") true u, false⟩
      else
        let u := { u with analyzeDisabled := true }
        let u := hideResults u
        let u := showStatus "Uploading and analyzing video. This may take a moment..." false u
        let u :=
          match server with
          | .fetchError isConn msg => catchBranch isConn msg u
          | .respond ok status statusText body =>
            match body with
            | .failed =>
              if ¬ ok then
                catchBranch false ("Server returned status " ++ toString status ++ " " ++
                  statusText ++ ", but response was not valid JSON.") u
              else
                afterParse ok status statusText
                  (some ⟨some false, none,
                    some "Received non-JSON response from server.", none, none⟩) u
            | .value v => afterParse ok status statusText v u
        ⟨finallyBranch u, true⟩

/-- The UI after the initial setup (script.js lines 332-335): no status,
results hidden, analyze button enabled. -/
def initialUi : Ui :=
  { status := none, resultsShown := false, rendered := none, analyzeDisabled := false }

/-! ### Helper lemmas -/

lemma strContainsAux_append_right (p l₁ l₂ : List Char)
    (h : strContainsAux p l₂ = true) : strContainsAux p (l₁ ++ l₂) = true := by
  induction l₁ with
  | nil => simpa using h
  | cons c cs ih =>
    simp only [List.cons_append, strContainsAux, Bool.or_eq_true]
    exact Or.inr ih

lemma strContains_append_right (a b p : String)
    (h : strContains b p = true) : strContains (a ++ b) p = true := by
  unfold strContains at h ⊢
  rw [String.data_append]
  exact strContainsAux_append_right _ _ _ h

/-! ### Claims -/

/-- C1: for every file whose declared media type is not in the allowed set,
the analyze handler shows an error status and issues no network call, and
the drop handler likewise rejects it with an error status. -/
theorem c1_disallowed_type_rejected (u : Ui) (f : FileData) (server : ServerBehavior)
    (hidle : u.analyzeDisabled = false)
    (h : f.type ∉ ALLOWED_FILE_TYPES) :
    (handleAnalysisRequest u (some f) server).fetchCalled = false ∧
    (handleAnalysisRequest u (some f) server).ui.status =
      some ⟨"Unsupported file type (" ++ (if f.type = "" then "unknown" else f.type) ++
        "). Please upload " ++ allowedTypesStr ++ ".", true⟩ ∧
    (handleDrop [f] u).status =
      some ⟨"Unsupported file type: " ++ f.type ++ ". Please use MP4, MOV, or AVI.", true⟩ := by
  refine ⟨?_, ?_, ?_⟩ <;>
    simp [handleAnalysisRequest, handleDrop, hidle, h, showStatus]

/-- Witness for C1 at a concrete text file. -/
theorem c1_disallowed_type_rejected_witness :
    (handleAnalysisRequest initialUi (some ⟨"notes.txt", 10, "text/plain"⟩)
        (.fetchError true "failed to fetch")).fetchCalled = false ∧
    (handleAnalysisRequest initialUi (some ⟨"notes.txt", 10, "text/plain"⟩)
        (.fetchError true "failed to fetch")).ui.status =
      some ⟨"Unsupported file type (" ++
        (if ("text/plain" : String) = "" then "unknown" else "text/plain") ++
        "). Please upload " ++ allowedTypesStr ++ ".", true⟩ ∧
    (handleDrop [⟨"notes.txt", 10, "text/plain"⟩] initialUi).status =
      some ⟨"Unsupported file type: " ++ "text/plain" ++
        ". Please use MP4, MOV, or AVI.", true⟩ :=
  c1_disallowed_type_rejected initialUi ⟨"notes.txt", 10, "text/plain"⟩
    (.fetchError true "failed to fetch") rfl (by decide)

/-- C2: a file whose size strictly exceeds the 50 MiB limit (52,428,800
bytes) is rejected with a message naming the limit and no fetch occurs,
while a file of exactly 52,428,800 bytes passes validation and the fetch
is issued. -/
theorem c2_size_limit (u : Ui) (f : FileData) (server : ServerBehavior)
    (hidle : u.analyzeDisabled = false)
    (ht : f.type ∈ ALLOWED_FILE_TYPES) :
    maxFileSizeBytes = 52428800 ∧
    (f.size > maxFileSizeBytes →
      (handleAnalysisRequest u (some f) server).fetchCalled = false ∧
      (handleAnalysisRequest u (some f) server).ui.status =
        some ⟨"File size (" ++ formatFileSize (ByteInput.int f.size) ++ ") exceeds " ++
          toString MAX_FILE_SIZE_MB ++ "MB limit.", true⟩ ∧
      strContains ("File size (" ++ formatFileSize (ByteInput.int f.size) ++ ") exceeds " ++
        toString MAX_FILE_SIZE_MB ++ "MB limit.") "50MB" = true) ∧
    (f.size = maxFileSizeBytes →
      (handleAnalysisRequest u (some f) server).fetchCalled = true) := by
  refine ⟨rfl, fun hgt => ⟨?_, ?_, ?_⟩, fun heq => ?_⟩
  · simp [handleAnalysisRequest, hidle, ht, hgt, showStatus]
  · simp [handleAnalysisRequest, hidle, ht, hgt, showStatus]
  · rw [String.append_assoc, String.append_assoc]
    exact strContains_append_right _ _ _ (by decide)
  · have hng : ¬ f.size > maxFileSizeBytes := by omega
    simp [handleAnalysisRequest, hidle, ht, hng]

/-- Witness for C2 at 52,428,801 bytes (rejected) and 52,428,800 bytes
(fetch issued). -/
theorem c2_size_limit_witness :
    (maxFileSizeBytes = 52428800 ∧
      ((52428801 : Nat) > maxFileSizeBytes →
        (handleAnalysisRequest initialUi (some ⟨"big.mp4", 52428801, "video/mp4"⟩)
            (.fetchError true "failed to fetch")).fetchCalled = false ∧
        (handleAnalysisRequest initialUi (some ⟨"big.mp4", 52428801, "video/mp4"⟩)
            (.fetchError true "failed to fetch")).ui.status =
          some ⟨"File size (" ++ formatFileSize (ByteInput.int 52428801) ++ ") exceeds " ++
            toString MAX_FILE_SIZE_MB ++ "MB limit.", true⟩ ∧
        strContains ("File size (" ++ formatFileSize (ByteInput.int 52428801) ++
          ") exceeds " ++ toString MAX_FILE_SIZE_MB ++ "MB limit.") "50MB" = true) ∧
      ((52428800 : Nat) = maxFileSizeBytes →
        (handleAnalysisRequest initialUi (some ⟨"ok.mp4", 52428800, "video/mp4"⟩)
            (.fetchError true "failed to fetch")).fetchCalled = true)) ∧
    (52428801 : Nat) > maxFileSizeBytes ∧ (52428800 : Nat) = maxFileSizeBytes :=
  ⟨⟨(c2_size_limit initialUi ⟨"big.mp4", 52428801, "video/mp4"⟩
        (.fetchError true "failed to fetch") rfl (by decide)).1,
    (c2_size_limit initialUi ⟨"big.mp4", 52428801, "video/mp4"⟩
        (.fetchError true "failed to fetch") rfl (by decide)).2.1,
    (c2_size_limit initialUi ⟨"ok.mp4", 52428800, "video/mp4"⟩
        (.fetchError true "failed to fetch") rfl (by decide)).2.2⟩,
    by decide, by decide⟩

/-- C3: the displayed confidence is the rounded server value clamped to
[0,100] (150 shows as 100, -5 as 0), and a missing, null or NaN confidence
shows as 0; the rendered panel always carries this value. -/
theorem c3_confidence_clamped :
    (∀ q : ℚ, (displayedConfidence (some (JsNum.num q)) : Int) =
      max 0 (min 100 (jsRound q))) ∧
    displayedConfidence (some (JsNum.num 150)) = 100 ∧
    displayedConfidence (some (JsNum.num (-5))) = 0 ∧
    displayedConfidence none = 0 ∧
    displayedConfidence (some JsNum.nan) = 0 ∧
    (∀ c : Option JsNum, displayedConfidence c ≤ 100) ∧
    (∀ data : ResultsData,
      (renderResults data).confidencePct = displayedConfidence data.confidence) := by
  refine ⟨fun q => ?_,
    by norm_num [displayedConfidence, jsRound]; decide,
    by norm_num [displayedConfidence, jsRound],
    rfl, rfl, fun c => ?_, fun data => rfl⟩
  · simp only [displayedConfidence]
    omega
  · match c with
    | none => simp [displayedConfidence]
    | some JsNum.nan => simp [displayedConfidence]
    | some (JsNum.num q) => simp only [displayedConfidence]; omega

/-- C4: on the success render path each absent numeric count displays as
"N/A" while a present 0 displays as "0". -/
theorem c4_missing_counts_na (u : Ui) (rd : ResponseBody) (data : ResultsData)
    (hs : rd.success = some true) (hr : rd.results = some data)
    (hn : data.error_message = none) :
    (showResults (some rd) u).rendered = some (renderResults data) ∧
    (renderResults data).totalFrames = nullishCount data.frames_analyzed ∧
    (renderResults data).realCount = nullishCount data.real_frames ∧
    (renderResults data).fakeCount = nullishCount data.fake_frames ∧
    nullishCount none = "N/A" ∧
    nullishCount (some 0) = "0" := by
  refine ⟨?_, rfl, rfl, rfl, rfl, rfl⟩
  simp [showResults, hs, hr, hn, truthyStr, hideStatus]

/-- Witness for C4: a body with `frames_analyzed` absent and both frame
counts present as 0. -/
theorem c4_missing_counts_na_witness :
    (showResults (some ⟨some true,
        some ⟨none, none, none, none, some 0, some 0, none⟩,
        none, none, none⟩) initialUi).rendered =
      some (renderResults ⟨none, none, none, none, some 0, some 0, none⟩) ∧
    (renderResults (⟨none, none, none, none, some 0, some 0, none⟩ : ResultsData)).totalFrames =
      nullishCount none ∧
    (renderResults (⟨none, none, none, none, some 0, some 0, none⟩ : ResultsData)).realCount =
      nullishCount (some 0) ∧
    (renderResults (⟨none, none, none, none, some 0, some 0, none⟩ : ResultsData)).fakeCount =
      nullishCount (some 0) ∧
    nullishCount none = "N/A" ∧
    nullishCount (some 0) = "0" :=
  c4_missing_counts_na initialUi
    ⟨some true, some ⟨none, none, none, none, some 0, some 0, none⟩, none, none, none⟩
    ⟨none, none, none, none, some 0, some 0, none⟩ rfl rfl rfl

/-- C5 counterexample: for HTTP 500 with a parseable body carrying none of
the error fields, the displayed message is the generic retry text, which
does not name the status 500, contradicting the claimed
"server error <status>" fallback display. -/
theorem c5_counterexample :
    (handleAnalysisRequest initialUi (some ⟨"a.mp4", 1000, "video/mp4"⟩)
        (.respond false 500 "Internal Server Error"
          (.value (some ⟨none, none, none, none, none⟩)))).ui.status =
      some ⟨"A server error occurred during analysis. Please try again later.", true⟩ ∧
    strContains "A server error occurred during analysis. Please try again later."
      "500" = false := by
  exact ⟨rfl, by decide⟩

/-- C5 amended: for a failing HTTP status the message is extracted by the
priority error, detail, message, with fallback
`Server error: <status> <statusText>`; the result is then passed through
the catch rewriting, which replaces any message containing
`Server error: 5` (in particular the fallback for 5xx statuses) by a
generic retry text that does not name the status; an unparseable failing
body yields a generic `Server returned status <status> ... not valid JSON`
message rather than the raw parse error. -/
theorem c5_amended (u : Ui) (f : FileData) (status : Nat) (statusText : String)
    (rd : ResponseBody)
    (hidle : u.analyzeDisabled = false)
    (ht : f.type ∈ ALLOWED_FILE_TYPES) (hs : f.size ≤ maxFileSizeBytes) :
    (handleAnalysisRequest u (some f)
        (.respond false status statusText (.value (some rd)))).ui.status =
      some ⟨catchUserMessage false
        (jsOrStr (jsOrOpt rd.error (jsOrOpt rd.detail rd.message))
          ("Server error: " ++ toString status ++ " " ++ statusText)), true⟩ ∧
    (handleAnalysisRequest u (some f)
        (.respond false status statusText .failed)).ui.status =
      some ⟨catchUserMessage false
        ("Server returned status " ++ toString status ++ " " ++ statusText ++
          ", but response was not valid JSON."), true⟩ := by
  have hng : ¬ f.size > maxFileSizeBytes := by omega
  constructor <;>
    simp [handleAnalysisRequest, hidle, ht, hng, afterParse, catchBranch,
      hideResults, showStatus, hideStatus, finallyBranch]

/-- Witness for C5 amended: HTTP 500 with body `detail = "OOM"` and HTTP
500 with an unparseable body, at a concrete valid file. -/
theorem c5_amended_witness :
    ((handleAnalysisRequest initialUi (some ⟨"a.mp4", 1000, "video/mp4"⟩)
        (.respond false 500 "Internal Server Error"
          (.value (some ⟨none, none, none, some "OOM", none⟩)))).ui.status =
      some ⟨catchUserMessage false
        (jsOrStr (jsOrOpt none (jsOrOpt (some "OOM") none))
          ("Server error: " ++ toString 500 ++ " " ++ "Internal Server Error")), true⟩ ∧
    (handleAnalysisRequest initialUi (some ⟨"a.mp4", 1000, "video/mp4"⟩)
        (.respond false 500 "Internal Server Error" .failed)).ui.status =
      some ⟨catchUserMessage false
        ("Server returned status " ++ toString 500 ++ " " ++ "Internal Server Error" ++
          ", but response was not valid JSON."), true⟩) ∧
    (handleAnalysisRequest initialUi (some ⟨"a.mp4", 1000, "video/mp4"⟩)
        (.respond false 500 "Internal Server Error"
          (.value (some ⟨none, none, none, some "OOM", none⟩)))).ui.status =
      some ⟨"Analysis failed: OOM", true⟩ :=
  ⟨c5_amended initialUi ⟨"a.mp4", 1000, "video/mp4"⟩ 500 "Internal Server Error"
      ⟨none, none, none, some "OOM", none⟩ rfl (by decide) (by decide),
    by decide⟩

/-- C6 counterexample: an HTTP-success body with `success = false` and only
a `detail` field displays the generic failure text, not the detail text —
the `detail` field is not consulted on this path, contradicting the claimed
"same field priority as the HTTP-failure case". -/
theorem c6_counterexample :
    (handleAnalysisRequest initialUi (some ⟨"a.mp4", 1000, "video/mp4"⟩)
        (.respond true 200 "OK"
          (.value (some ⟨some false, none, none, some "OOM", none⟩)))).ui.status =
      some ⟨"Analysis failed: Analysis reported failure.", true⟩ ∧
    strContains "Analysis failed: Analysis reported failure." "OOM" = false := by
  exact ⟨rfl, by decide⟩

/-- C6 amended: on an HTTP-success response whose body carries
`success = false`, the message is extracted with the shorter priority
error, then message, then the generic "Analysis reported failure." text —
the `detail` field is skipped — and the result goes through the catch
rewriting; the result panel is hidden. -/
theorem c6_amended (u : Ui) (f : FileData) (status : Nat) (statusText : String)
    (rd : ResponseBody)
    (hidle : u.analyzeDisabled = false)
    (ht : f.type ∈ ALLOWED_FILE_TYPES) (hs : f.size ≤ maxFileSizeBytes)
    (hflag : rd.success = some false) :
    (handleAnalysisRequest u (some f)
        (.respond true status statusText (.value (some rd)))).ui.status =
      some ⟨catchUserMessage false
        (jsOrStr (jsOrOpt rd.error rd.message) "Analysis reported failure."), true⟩ ∧
    (handleAnalysisRequest u (some f)
        (.respond true status statusText (.value (some rd)))).ui.resultsShown = false := by
  have hng : ¬ f.size > maxFileSizeBytes := by omega
  constructor <;>
    simp [handleAnalysisRequest, hidle, ht, hng, afterParse, hflag, catchBranch,
      hideResults, showStatus, hideStatus, finallyBranch]

/-- Witness for C6 amended: `success = false` with `detail = "D"` and
`message = "M"` present; the extracted text is "M" (the `message` field),
shown as "Analysis failed: M". -/
theorem c6_amended_witness :
    ((handleAnalysisRequest initialUi (some ⟨"a.mp4", 1000, "video/mp4"⟩)
        (.respond true 200 "OK"
          (.value (some ⟨some false, none, none, some "D", some "M"⟩)))).ui.status =
      some ⟨catchUserMessage false
        (jsOrStr (jsOrOpt none (some "M")) "Analysis reported failure."), true⟩ ∧
    (handleAnalysisRequest initialUi (some ⟨"a.mp4", 1000, "video/mp4"⟩)
        (.respond true 200 "OK"
          (.value (some ⟨some false, none, none, some "D", some "M"⟩)))).ui.resultsShown =
      false) ∧
    (handleAnalysisRequest initialUi (some ⟨"a.mp4", 1000, "video/mp4"⟩)
        (.respond true 200 "OK"
          (.value (some ⟨some false, none, none, some "D", some "M"⟩)))).ui.status =
      some ⟨"Analysis failed: M", true⟩ :=
  ⟨c6_amended initialUi ⟨"a.mp4", 1000, "video/mp4"⟩ 200 "OK"
      ⟨some false, none, none, some "D", some "M"⟩ rfl (by decide) (by decide) rfl,
    by decide⟩

/-- C7: a successful response whose nested results object carries a
non-empty `error_message` yields an informational status with non-error
styling, the result panel stays hidden, and the analyze button is
re-enabled. -/
theorem c7_informational_note (u : Ui) (f : FileData) (status : Nat)
    (statusText : String) (rd : ResponseBody) (data : ResultsData) (note : String)
    (hidle : u.analyzeDisabled = false)
    (ht : f.type ∈ ALLOWED_FILE_TYPES) (hs : f.size ≤ maxFileSizeBytes)
    (hsucc : rd.success = some true) (hres : rd.results = some data)
    (hnote : truthyStr data.error_message = some note) :
    (handleAnalysisRequest u (some f)
        (.respond true status statusText (.value (some rd)))).ui.status =
      some ⟨"Analysis Note: " ++ note, false⟩ ∧
    (handleAnalysisRequest u (some f)
        (.respond true status statusText (.value (some rd)))).ui.resultsShown = false ∧
    (handleAnalysisRequest u (some f)
        (.respond true status statusText (.value (some rd)))).ui.analyzeDisabled = false := by
  have hng : ¬ f.size > maxFileSizeBytes := by omega
  refine ⟨?_, ?_, ?_⟩ <;>
    simp [handleAnalysisRequest, hidle, ht, hng, afterParse, hsucc, hres, hnote,
      showResults, showStatus, hideStatus, hideResults, finallyBranch]

/-- Witness for C7: the spec's own example, a success body whose results
carry `error_message = "no face detected"`. -/
theorem c7_informational_note_witness :
    (handleAnalysisRequest initialUi (some ⟨"a.mp4", 1000, "video/mp4"⟩)
        (.respond true 200 "OK"
          (.value (some ⟨some true,
            some ⟨some "no face detected", none, none, none, none, none, none⟩,
            none, none, none⟩)))).ui.status =
      some ⟨"Analysis Note: " ++ "no face detected", false⟩ ∧
    (handleAnalysisRequest initialUi (some ⟨"a.mp4", 1000, "video/mp4"⟩)
        (.respond true 200 "OK"
          (.value (some ⟨some true,
            some ⟨some "no face detected", none, none, none, none, none, none⟩,
            none, none, none⟩)))).ui.resultsShown = false ∧
    (handleAnalysisRequest initialUi (some ⟨"a.mp4", 1000, "video/mp4"⟩)
        (.respond true 200 "OK"
          (.value (some ⟨some true,
            some ⟨some "no face detected", none, none, none, none, none, none⟩,
            none, none, none⟩)))).ui.analyzeDisabled = false :=
  c7_informational_note initialUi ⟨"a.mp4", 1000, "video/mp4"⟩ 200 "OK"
    ⟨some true, some ⟨some "no face detected", none, none, none, none, none, none⟩,
      none, none, none⟩
    ⟨some "no face detected", none, none, none, none, none, none⟩
    "no face detected" rfl (by decide) (by decide) rfl rfl (by decide)

lemma analyzeDisabled_after_run (u : Ui) (file : Option FileData)
    (server : ServerBehavior) (hidle : u.analyzeDisabled = false) :
    (handleAnalysisRequest u file server).ui.analyzeDisabled = false := by
  rcases file with _ | f
  · simp [handleAnalysisRequest, hidle, showStatus]
  · by_cases hc : f.type ∈ ALLOWED_FILE_TYPES
    · by_cases hsz : f.size > maxFileSizeBytes
      · simp [handleAnalysisRequest, hidle, hc, hsz, showStatus]
      · simp [handleAnalysisRequest, hidle, hc, hsz, finallyBranch]
    · simp [handleAnalysisRequest, hidle, hc, showStatus]

lemma run_success_renders (u : Ui) (g : FileData) (rd : ResponseBody)
    (data : ResultsData) (hidle : u.analyzeDisabled = false)
    (ht : g.type ∈ ALLOWED_FILE_TYPES) (hs : g.size ≤ maxFileSizeBytes)
    (hsucc : rd.success = some true) (hres : rd.results = some data)
    (hnote : data.error_message = none) :
    (handleAnalysisRequest u (some g)
        (.respond true 200 "OK" (.value (some rd)))).ui.resultsShown = true ∧
    (handleAnalysisRequest u (some g)
        (.respond true 200 "OK" (.value (some rd)))).ui.rendered =
      some (renderResults data) := by
  have hng : ¬ g.size > maxFileSizeBytes := by omega
  constructor <;>
    simp [handleAnalysisRequest, hidle, ht, hng, afterParse, hsucc, hres, hnote,
      showResults, truthyStr, showStatus, hideStatus, hideResults, finallyBranch]

/-- C8: starting from an enabled trigger, every run of the analyze handler
— validation reject, success, handled failure, informational note, network
error or unparseable body — ends with the analyze button re-enabled, and a
subsequent run with a valid file and a successful response still renders
the result panel. -/
theorem c8_busy_cleared (u : Ui) (file : Option FileData) (server : ServerBehavior)
    (hidle : u.analyzeDisabled = false) :
    (handleAnalysisRequest u file server).ui.analyzeDisabled = false ∧
    (∀ (g : FileData) (rd : ResponseBody) (data : ResultsData),
      g.type ∈ ALLOWED_FILE_TYPES → g.size ≤ maxFileSizeBytes →
      rd.success = some true → rd.results = some data → data.error_message = none →
      (handleAnalysisRequest (handleAnalysisRequest u file server).ui (some g)
          (.respond true 200 "OK" (.value (some rd)))).ui.resultsShown = true ∧
      (handleAnalysisRequest (handleAnalysisRequest u file server).ui (some g)
          (.respond true 200 "OK" (.value (some rd)))).ui.rendered =
        some (renderResults data)) := by
  have hend := analyzeDisabled_after_run u file server hidle
  exact ⟨hend, fun g rd data ht hs hsucc hres hnote =>
    run_success_renders _ g rd data hend ht hs hsucc hres hnote⟩

/-- Witness for C8: a failed first run (connection failure) followed by a
successful second run that renders the result panel. -/
theorem c8_busy_cleared_witness :
    (handleAnalysisRequest initialUi (some ⟨"a.mp4", 1000, "video/mp4"⟩)
        (.fetchError true "failed to fetch")).ui.analyzeDisabled = false ∧
    ((handleAnalysisRequest
        (handleAnalysisRequest initialUi (some ⟨"a.mp4", 1000, "video/mp4"⟩)
          (.fetchError true "failed to fetch")).ui
        (some ⟨"a.mp4", 1000, "video/mp4"⟩)
        (.respond true 200 "OK" (.value (some ⟨some true,
          some ⟨none, none, some "REAL", some 120, some 110, some 10, none⟩,
          none, none, none⟩)))).ui.resultsShown = true ∧
     (handleAnalysisRequest
        (handleAnalysisRequest initialUi (some ⟨"a.mp4", 1000, "video/mp4"⟩)
          (.fetchError true "failed to fetch")).ui
        (some ⟨"a.mp4", 1000, "video/mp4"⟩)
        (.respond true 200 "OK" (.value (some ⟨some true,
          some ⟨none, none, some "REAL", some 120, some 110, some 10, none⟩,
          none, none, none⟩)))).ui.rendered =
       some (renderResults ⟨none, none, some "REAL", some 120, some 110, some 10, none⟩)) :=
  ⟨(c8_busy_cleared initialUi (some ⟨"a.mp4", 1000, "video/mp4"⟩)
      (.fetchError true "failed to fetch") rfl).1,
    (c8_busy_cleared initialUi (some ⟨"a.mp4", 1000, "video/mp4"⟩)
        (.fetchError true "failed to fetch") rfl).2
      ⟨"a.mp4", 1000, "video/mp4"⟩
      ⟨some true, some ⟨none, none, some "REAL", some 120, some 110, some 10, none⟩,
        none, none, none⟩
      ⟨none, none, some "REAL", some 120, some 110, some 10, none⟩
      (by decide) (by decide) rfl rfl rfl⟩

/-- C9 counterexample: an unrecognized non-empty verdict value "SPOOF" is
displayed verbatim with class `verdict-SPOOF`, not defaulted to UNKNOWN as
the claim requires for unrecognized values. -/
theorem c9_counterexample :
    (showResults (some ⟨some true,
        some ⟨none, none, some "SPOOF", none, none, none, none⟩,
        none, none, none⟩) initialUi).rendered =
      some ⟨"N/A", "SPOOF", "N/A", "N/A", "N/A", 0,
        "confidence-meter-bar low", "verdict-SPOOF"⟩ ∧
    ("SPOOF" : String) ≠ "UNKNOWN" ∧
    ("verdict-SPOOF" : String) ≠ "verdict-UNKNOWN" := by
  exact ⟨rfl, by decide, by decide⟩

/-- C9 amended: the verdict styling class is derived deterministically from
the displayed verdict text as `verdict-` plus its uppercase form; text and
class default to UNKNOWN exactly when the verdict field is absent or empty,
while an unrecognized non-empty verdict is displayed verbatim (its class
carrying the uppercased value). -/
theorem c9_amended :
    (∀ data : ResultsData,
      (renderResults data).verdictText = displayedVerdict data.verdict ∧
      (renderResults data).verdictClass =
        "verdict-" ++ jsToUpper (displayedVerdict data.verdict)) ∧
    displayedVerdict none = "UNKNOWN" ∧
    displayedVerdict (some "") = "UNKNOWN" ∧
    (∀ s : String, s ≠ "" → displayedVerdict (some s) = s) := by
  refine ⟨fun data => ⟨rfl, rfl⟩, rfl, by decide, fun s hs => ?_⟩
  simp [displayedVerdict, jsOrStr, hs]

/-- Witness for C9 amended at verdict value "fake": displayed verbatim with
class `verdict-FAKE`. -/
theorem c9_amended_witness :
    ((renderResults (⟨none, none, some "fake", none, none, none, none⟩ : ResultsData)).verdictText =
      displayedVerdict (some "fake") ∧
     (renderResults (⟨none, none, some "fake", none, none, none, none⟩ : ResultsData)).verdictClass =
      "verdict-" ++ jsToUpper (displayedVerdict (some "fake"))) ∧
    displayedVerdict none = "UNKNOWN" ∧
    (("fake" : String) ≠ "" ∧ displayedVerdict (some "fake") = "fake") ∧
    (renderResults (⟨none, none, some "fake", none, none, none, none⟩ : ResultsData)).verdictClass =
      "verdict-FAKE" :=
  ⟨c9_amended.1 ⟨none, none, some "fake", none, none, none, none⟩,
    c9_amended.2.1,
    ⟨by decide, c9_amended.2.2.2 "fake" (by decide)⟩,
    by decide⟩

/-- C10: `formatFileSize` is total on its domain and in-bounds: 0 maps to
"0 Bytes", negative and NaN inputs map to "Invalid size", for every
positive input the unit index is clamped below the length of the unit
array so the unit lookup always hits a real entry, and every size from
1024^4 up reuses the "TB" unit. -/
theorem c10_formatFileSize_total :
    formatFileSize (ByteInput.int 0) = "0 Bytes" ∧
    formatFileSize ByteInput.nan = "Invalid size" ∧
    (∀ n : Int, n < 0 → formatFileSize (ByteInput.int n) = "Invalid size") ∧
    (∀ n : Nat, sizeIndex n < sizesUnits.length) ∧
    (∀ n : Nat, sizesUnits.getD (sizeIndex n) "" ∈ sizesUnits) ∧
    (∀ n : Int, 0 < n → formatFileSize (ByteInput.int n) =
      toString ((n : ℚ) / ((1024 : ℚ) ^ sizeIndex n.toNat)) ++ " " ++
        sizesUnits.getD (sizeIndex n.toNat) "") ∧
    (∀ n : Nat, 1024 ^ 4 ≤ n → sizesUnits.getD (sizeIndex n) "" = "TB") := by
  refine ⟨rfl, rfl, fun n hn => ?_, fun n => ?_, fun n => ?_, fun n hn => ?_,
    fun n hge => ?_⟩
  · have h0 : ¬ (ByteInput.int n = ByteInput.int 0) := by simp; omega
    simp [formatFileSize, h0, hn]
  · simp only [sizeIndex, fileSizeExponent, sizesUnits, List.length_cons,
      List.length_nil]
    omega
  · have hi : sizeIndex n < 5 := by
      simp only [sizeIndex, fileSizeExponent, sizesUnits, List.length_cons,
        List.length_nil]
      omega
    have hall : ∀ i < 5, sizesUnits.getD i "" ∈ sizesUnits := by decide
    exact hall _ hi
  · have h0 : ¬ (ByteInput.int n = ByteInput.int 0) := by simp; omega
    have h1 : ¬ n < 0 := by omega
    simp [formatFileSize, h0, h1]
  · have hlog : 4 ≤ Nat.log 1024 n :=
      le_trans (le_of_eq (Nat.log_pow (by norm_num) 4).symm) (Nat.log_mono_right hge)
    have hidx : sizeIndex n = 4 := by
      simp only [sizeIndex, fileSizeExponent, sizesUnits, List.length_cons,
        List.length_nil]
      omega
    rw [hidx]
    rfl

/-- Witness for C10: the special values, the index bound and unit at a
3-byte file, a positive input of 52,428,801 bytes, and a size of 1024^5
bytes (beyond the TB range) reusing "TB". -/
theorem c10_formatFileSize_total_witness :
    formatFileSize (ByteInput.int 0) = "0 Bytes" ∧
    formatFileSize ByteInput.nan = "Invalid size" ∧
    formatFileSize (ByteInput.int (-7)) = "Invalid size" ∧
    sizeIndex 3 < sizesUnits.length ∧
    sizesUnits.getD (sizeIndex 3) "" ∈ sizesUnits ∧
    formatFileSize (ByteInput.int 52428801) =
      toString ((52428801 : ℚ) / ((1024 : ℚ) ^ sizeIndex (Int.toNat 52428801))) ++ " " ++
        sizesUnits.getD (sizeIndex (Int.toNat 52428801)) "" ∧
    sizesUnits.getD (sizeIndex (1024 ^ 5)) "" = "TB" :=
  ⟨c10_formatFileSize_total.1,
    c10_formatFileSize_total.2.1,
    c10_formatFileSize_total.2.2.1 (-7) (by decide),
    c10_formatFileSize_total.2.2.2.1 3,
    c10_formatFileSize_total.2.2.2.2.1 3,
    c10_formatFileSize_total.2.2.2.2.2.1 52428801 (by decide),
    c10_formatFileSize_total.2.2.2.2.2.2 (1024 ^ 5) (by norm_num)⟩

end LunaShield
